import Mathlib

/-!
Verification of the frame allocator and paging engine of
`RealTime-Mem-Allocator` (`app.py`).

The Python source keeps its state in plain dictionaries, sets and an
`OrderedDict`/`deque`.  We embed those shallowly:

* a `dict` becomes an association list `List (κ × ν)` with unique keys kept
  in insertion order (updating an existing key keeps its position, exactly
  like a Python dict);
* a `set` of frame indices becomes a duplicate-free `List Nat`; Python's
  `set.pop()` removes an unspecified element, which we refine
  deterministically to the head of the list, and `set.add` appends when the
  element is absent;
* `collections.OrderedDict` becomes an association list with
  `move_to_end` / pop-first operations;
* `collections.deque` becomes a `List Nat` (append at the tail, `popleft`
  at the head);
* `time.time()` values are only ever stored, never compared (the
  `OrderedDict` order itself is the LRU order), so we model the clock as a
  `Nat` counter bumped at each reading;
* `random.randrange(n)` takes an externally supplied `rnd : Nat` reduced
  `mod n`, and raises (`Except.error`) when `n = 0` exactly as Python does;
* code paths that can raise a Python exception (`ZeroDivisionError` in
  `_rebuild`, `KeyError` on a missing dict key or popping an empty set,
  `ValueError` in `randrange`) return `Except.error`.
-/

namespace MemSim

/-- Lookup in a Python-dict association list (keys are unique). -/
def dlookup {κ ν : Type} [DecidableEq κ] : List (κ × ν) → κ → Option ν
  | [], _ => none
  | (k, v) :: rest, key => if key = k then some v else dlookup rest key

/-- Python `d[key] = val` on a Python dict: update in place if the key exists
(keeping its position), otherwise append at the end. -/
def dset {κ ν : Type} [DecidableEq κ] : List (κ × ν) → κ → ν → List (κ × ν)
  | [], key, val => [(key, val)]
  | (k, v) :: rest, key, val =>
    if key = k then (k, val) :: rest else (k, v) :: dset rest key val

/-- Python `del d[key]` / `d.pop(key, None)` on a Python dict. -/
def derase {κ ν : Type} [DecidableEq κ] : List (κ × ν) → κ → List (κ × ν)
  | [], _ => []
  | (k, v) :: rest, key => if key = k then rest else (k, v) :: derase rest key

/-- Python `OrderedDict.move_to_end(key)`: move an existing key to the last
position.  In the source it is only ever called right after `d[key] = v`,
so the key is always present; a missing key leaves the list unchanged. -/
def odMoveToEnd {κ ν : Type} [DecidableEq κ] (l : List (κ × ν)) (key : κ) :
    List (κ × ν) :=
  match dlookup l key with
  | none => l
  | some v => derase l key ++ [(key, v)]

/-- Python `set.add` on a set of frame indices (modelled as a duplicate-free list). -/
def sadd (l : List Nat) (x : Nat) : List Nat :=
  if x ∈ l then l else l ++ [x]

/-- Extract the payload of a successful `Except` computation (all the
concrete scenarios below only ever evaluate successful runs). -/
def okD {α : Type} [Inhabited α] : Except String α → α
  | Except.ok a => a
  | Except.error _ => default

instance {ε α : Type} [DecidableEq ε] [DecidableEq α] : DecidableEq (Except ε α) :=
  fun x y =>
    match x, y with
    | Except.ok a, Except.ok b =>
      if h : a = b then Decidable.isTrue (h ▸ rfl)
      else Decidable.isFalse (fun hh => h (Except.ok.inj hh))
    | Except.ok _, Except.error _ => Decidable.isFalse (fun hh => Except.noConfusion hh)
    | Except.error _, Except.ok _ => Decidable.isFalse (fun hh => Except.noConfusion hh)
    | Except.error e, Except.error e2 =>
      if h : e = e2 then Decidable.isTrue (h ▸ rfl)
      else Decidable.isFalse (fun hh => h (Except.error.inj hh))

/-- Python `class Frame` (`app.py` lines 18-25): index, owning pid, display label. -/
structure Frame where
  idx : Nat
  pid : Option String
  label : Option String
  deriving DecidableEq, Repr, Inhabited

/-- Python `Frame.is_free` (`app.py` line 24). -/
def Frame.is_free (f : Frame) : Bool :=
  f.pid = none

/-- Set `frames[i].pid` and `frames[i].label`.  In Python `frames[i]`
raises `IndexError` out of range; every call site in the source indexes a
frame that exists, so out-of-range is modelled as a no-op. -/
def frameSetOwner (frames : List Frame) (i : Nat)
    (pid : Option String) (label : Option String) : List Frame :=
  match frames[i]? with
  | none => frames
  | some f => frames.set i { f with pid := pid, label := label }

/-- Python `class MemoryManager` state (`app.py` lines 28-38). -/
structure MemoryManager where
  total_kb : Int
  frame_kb : Int
  frames : List Frame
  free_frames : List Nat
  pid_to_frames : List (String × List Nat)
  page_faults : Nat
  allocations : Nat
  deallocations : Nat
  deriving DecidableEq, Repr, Inhabited

/-- Python `f.pid = None; f.label = None; free_frames.add(fidx)` — the release
step shared by `free_pid` (`app.py` lines 78-81), `deallocate_pid`
(lines 110-113) and the LRU eviction (lines 142-145). -/
def releaseFrame (m : MemoryManager) (fidx : Nat) : MemoryManager :=
  { m with
    frames := frameSetOwner m.frames fidx none none,
    free_frames := sadd m.free_frames fidx }

/-- The loop body of `deallocate_pid` (`app.py` lines 108-113): release
the frame of a resident page-table entry, skip absent entries. -/
def releaseEntry (m : MemoryManager) (e : Int × Option Nat) : MemoryManager :=
  match e.2 with
  | none => m
  | some fidx => releaseFrame m fidx

/-- Python `MemoryManager._rebuild` (`app.py` lines 40-47).
`n = max(1, self.total_kb // self.frame_kb)` — Python `//` is floor
division, and raises `ZeroDivisionError` when `frame_kb == 0`. -/
def MemoryManager.rebuild (m : MemoryManager) : Except String MemoryManager :=
  if m.frame_kb = 0 then
    Except.error "ZeroDivisionError: integer division or modulo by zero"
  else
    let n : Nat := (max 1 (m.total_kb.fdiv m.frame_kb)).toNat
    Except.ok { m with
      frames := (List.range n).map (fun i => { idx := i, pid := none, label := none }),
      free_frames := List.range n,
      pid_to_frames := [],
      page_faults := 0,
      allocations := 0,
      deallocations := 0 }

/-- Python `MemoryManager.__init__` (`app.py` lines 29-38): store the
configuration and run `_rebuild`. -/
def MemoryManager.init (total_kb frame_kb : Int) : Except String MemoryManager :=
  MemoryManager.rebuild
    { total_kb := total_kb, frame_kb := frame_kb, frames := [],
      free_frames := [], pid_to_frames := [], page_faults := 0,
      allocations := 0, deallocations := 0 }

/-- Python `MemoryManager.reset` (`app.py` lines 49-54): optionally replace the
configuration, then `_rebuild`. -/
def MemoryManager.reset (m : MemoryManager)
    (total_kb frame_kb : Option Int) : Except String MemoryManager :=
  MemoryManager.rebuild { m with
    total_kb := total_kb.getD m.total_kb,
    frame_kb := frame_kb.getD m.frame_kb }

/-- Python `MemoryManager.used_and_total` (`app.py` lines 56-58). -/
def MemoryManager.used_and_total (m : MemoryManager) : Nat × Nat :=
  ((m.frames.filter (fun f => !f.is_free)).length, m.frames.length)

/-- The allocation loop of `alloc_pages` (`app.py` lines 64-69): pop a
free frame (`set.pop`, refined to the list head; popping an empty set
raises `KeyError`), give it to `pid` with a cleared label, and collect it
in `chosen`. -/
def allocPop (pid : String) : Nat → MemoryManager → Except String (List Nat × MemoryManager)
  | 0, m => Except.ok ([], m)
  | n + 1, m =>
    match m.free_frames with
    | [] => Except.error "KeyError: pop from an empty set"
    | fidx :: rest =>
      match allocPop pid n { m with
          free_frames := rest,
          frames := frameSetOwner m.frames fidx (some pid) none } with
      | Except.error e => Except.error e
      | Except.ok (chosen, m) => Except.ok (fidx :: chosen, m)

/-- Python `pid_to_frames.setdefault(pid, set()).update(chosen)` (`app.py`
line 70): create the entry if needed, then add every chosen index. -/
def ownUpdate (d : List (String × List Nat)) (pid : String) (xs : List Nat) :
    List (String × List Nat) :=
  match dlookup d pid with
  | none => d ++ [(pid, xs.foldl sadd [])]
  | some s => dset d pid (xs.foldl sadd s)

/-- Python `pid_to_frames.setdefault(pid, set()).add(fidx)` (`app.py` line 154). -/
def ownAdd (d : List (String × List Nat)) (pid : String) (fidx : Nat) :
    List (String × List Nat) :=
  match dlookup d pid with
  | none => d ++ [(pid, [fidx])]
  | some s => dset d pid (sadd s fidx)

/-- Python `MemoryManager.alloc_pages` (`app.py` lines 60-72). -/
def MemoryManager.alloc_pages (m : MemoryManager) (pid : String)
    (num_pages : Int) : Except String ((Bool × String) × MemoryManager) :=
  if num_pages > (m.free_frames.length : Int) then
    Except.ok ((false, "Not enough free frames"), m)
  else
    match allocPop pid num_pages.toNat m with
    | Except.error e => Except.error e
    | Except.ok (chosen, m) =>
      let m := { m with
        pid_to_frames := ownUpdate m.pid_to_frames pid chosen,
        allocations := m.allocations + 1 }
      Except.ok ((true, "Allocated " ++ toString num_pages ++ " frames to " ++ pid), m)

/-- Python `MemoryManager.free_pid` (`app.py` lines 74-84). -/
def MemoryManager.free_pid (m : MemoryManager) (pid : String) :
    (Bool × String) × MemoryManager :=
  match dlookup m.pid_to_frames pid with
  | none => ((false, "PID not found"), m)
  | some owned =>
    let m := owned.foldl releaseFrame m
    let m := { m with
      pid_to_frames := derase m.pid_to_frames pid,
      deallocations := m.deallocations + 1 }
    ((true, "Deallocated " ++ pid), m)

/-- Python `class Pager` state (`app.py` lines 87-93).  The Python object holds a
reference `self.mem` to the `MemoryManager`; we store it as a field and
thread updates through it.  `clock` models successive readings of
`time.time()` (the stored timestamps are never compared by the code). -/
structure Pager where
  mem : MemoryManager
  algorithm : String
  page_tables : List (String × List (Int × Option Nat))
  fifo : List Nat
  lru : List ((String × Int) × Nat)
  clock : Nat
  deriving DecidableEq, Repr, Inhabited

/-- Python `Pager.__init__` (`app.py` lines 88-93). -/
def Pager.init (mem : MemoryManager) (algorithm : String) : Pager :=
  { mem := mem, algorithm := algorithm, page_tables := [], fifo := [],
    lru := [], clock := 0 }

/-- Python `Pager.reset` (`app.py` lines 95-100). -/
def Pager.reset (s : Pager) (algorithm : Option String) : Pager :=
  { s with
    algorithm := algorithm.getD s.algorithm,
    page_tables := [], fifo := [], lru := [] }

/-- Python `Pager.create_process` (`app.py` lines 102-103):
`page_tables[pid] = {p: None for p in range(num_pages)}` (an empty table
when `num_pages <= 0`, as `range` is then empty). -/
def Pager.create_process (s : Pager) (pid : String) (num_pages : Int) : Pager :=
  { s with
    page_tables := dset s.page_tables pid
      ((List.range num_pages.toNat).map (fun p => ((p : Int), (none : Option Nat)))) }

/-- Python `Pager.deallocate_pid` (`app.py` lines 105-117): for every resident
entry of the pid's table clear the frame and add it back to the free set,
delete the table, and purge the pid's keys from the LRU ordering.  (The
source touches neither `fifo` nor `mem.pid_to_frames` nor the
`deallocations` counter here.) -/
def Pager.deallocate_pid (s : Pager) (pid : String) : Pager :=
  match dlookup s.page_tables pid with
  | none => s
  | some pt =>
    let mem := pt.foldl releaseEntry s.mem
    { s with
      mem := mem,
      page_tables := derase s.page_tables pid,
      lru := s.lru.filter (fun e => decide (e.1.1 ≠ pid)) }

/-- Python `self.mem.page_faults += 1` (`app.py` line 120). -/
def Pager.chargeFault (s : Pager) : Pager :=
  { s with mem := { s.mem with page_faults := s.mem.page_faults + 1 } }

/-- Python `pt = self.page_tables.setdefault(pid, {})` (`app.py` line 121):
create an empty table if the pid has none. -/
def Pager.ensureTable (s : Pager) (pid : String) : Pager :=
  if (dlookup s.page_tables pid).isSome then s
  else { s with page_tables := s.page_tables ++ [(pid, [])] }

/-- The current page table of `pid` (the live dict the Python variable
`pt` aliases). -/
def Pager.tableOf (s : Pager) (pid : String) : List (Int × Option Nat) :=
  (dlookup s.page_tables pid).getD []

/-- Python `self.lru[key] = time.time(); self.lru.move_to_end(key)`
(`app.py` lines 126-127 and 161-162). -/
def Pager.touch (s : Pager) (pid : String) (page_no : Int) : Pager :=
  { s with
    lru := odMoveToEnd (dset s.lru (pid, page_no) s.clock) (pid, page_no),
    clock := s.clock + 1 }

/-- Python `random.randrange(len(self.mem.frames))` (`app.py` lines 136, 147,
149): raises `ValueError` on an empty range; otherwise the caller-supplied
`rnd` reduced modulo the frame count. -/
def Pager.randFrame (s : Pager) (rnd : Nat) : Except String (Nat × Pager) :=
  if s.mem.frames.length = 0 then
    Except.error "ValueError: empty range for randrange"
  else
    Except.ok (rnd % s.mem.frames.length, s)

/-- The "Need a frame" block of `access_page` (`app.py` lines 131-149):
take a free frame if any; otherwise FIFO pops the head of the load-order
queue (random fallback when empty), while LRU pops the oldest
`(pid, page)` key, clears that victim's frame, adds it to the free set
(without removing it again for reuse — the source never does), blanks the
victim's page-table entry, and reuses the victim's frame (random fallback
when the entry was already absent or the ordering empty).
`self.page_tables[vpid][vp]` raises `KeyError` when missing. -/
def Pager.obtainFrame (s : Pager) (rnd : Nat) : Except String (Nat × Pager) :=
  match s.mem.free_frames with
  | fidx :: rest =>
    Except.ok (fidx, { s with mem := { s.mem with free_frames := rest } })
  | [] =>
    if s.algorithm = "FIFO" then
      match s.fifo with
      | v :: rest => Except.ok (v, { s with fifo := rest })
      | [] => s.randFrame rnd
    else
      match s.lru with
      | [] => s.randFrame rnd
      | ((vpid, vp), _) :: rest =>
        match dlookup s.page_tables vpid with
        | none => Except.error "KeyError"
        | some vpt =>
          match dlookup vpt vp with
          | none => Except.error "KeyError"
          | some (some ofr) =>
            Except.ok (ofr, { s with
              lru := rest,
              mem := releaseFrame s.mem ofr,
              page_tables := dset s.page_tables vpid (dset vpt vp none) })
          | some none =>
            Pager.randFrame { s with
              lru := rest,
              page_tables := dset s.page_tables vpid (dset vpt vp none) } rnd

/-- Lines 151-163 of `access_page`: assign the obtained frame to
`(pid, page_no)`, label it, record ownership, write the page-table entry
(through the live table, which eviction may just have modified), and do
the policy bookkeeping (FIFO: append to the queue; otherwise LRU insert at
most-recent position). -/
def Pager.installMapping (s : Pager) (pid : String) (page_no : Int)
    (fidx : Nat) : Pager :=
  let s := { s with mem := { s.mem with
    frames := frameSetOwner s.mem.frames fidx (some pid) (some ("p" ++ toString page_no)),
    pid_to_frames := ownAdd s.mem.pid_to_frames pid fidx } }
  let s := { s with
    page_tables := dset s.page_tables pid (dset (s.tableOf pid) page_no (some fidx)) }
  if s.algorithm = "FIFO" then { s with fifo := s.fifo ++ [fidx] }
  else s.touch pid page_no

/-- Python `Pager.access_page` (`app.py` lines 119-164): charge the fault
counter, lazily create the pid's table, return a hit when the entry is
resident (touching the LRU ordering under LRU), otherwise obtain a frame
(free or via eviction) and install the new mapping. -/
def Pager.access_page (s0 : Pager) (pid : String) (page_no : Int)
    (rnd : Nat) : Except String ((Bool × String) × Pager) :=
  let s := (s0.chargeFault).ensureTable pid
  match dlookup (s.tableOf pid) page_no with
  | some (some _) =>
    if s.algorithm = "LRU" then Except.ok ((true, "hit"), s.touch pid page_no)
    else Except.ok ((true, "hit"), s)
  | _ =>
    match s.obtainFrame rnd with
    | Except.error e => Except.error e
    | Except.ok (fidx, s) =>
      Except.ok ((true, "loaded in frame " ++ toString fidx),
        s.installMapping pid page_no fidx)

/-! ### Stated invariants -/

/-- The conservation property of spec §8: the number of free frame indices
plus the sizes of all owned-frame sets equals the total frame count. -/
def conservation (m : MemoryManager) : Prop :=
  m.free_frames.length + (m.pid_to_frames.map (fun e => e.2.length)).sum
    = m.frames.length

instance (m : MemoryManager) : Decidable (conservation m) := by
  unfold conservation; infer_instance

/-! ### Concrete runs of the engine

Scenario A: a one-frame pool (`total_kb = 64`, `frame_kb = 64`) under
FIFO; process `P1` touches page 0 (fault, frame 0), then process `P2`
touches page 0 (fault with no free frame, FIFO eviction of frame 0). -/

def scenA0 : Pager := Pager.init (okD (MemoryManager.init 64 64)) "FIFO"

def scenA1 : Pager := (okD (scenA0.access_page "P1" 0 0)).2

def scenA2 : Pager := (okD (scenA1.access_page "P2" 0 0)).2

/-- Scenario B: a two-frame pool under FIFO; `P1` touches page 0 and is
then torn down via `deallocate_pid`. -/
def scenB0 : Pager := Pager.init (okD (MemoryManager.init 128 64)) "FIFO"

def scenB1 : Pager := (okD (scenB0.access_page "P1" 0 0)).2

def scenB2 : Pager := scenB1.deallocate_pid "P1"

/-- Scenario C: a two-frame pool under LRU; `P1` accesses pages
0 (A, fault), 1 (B, fault), 0 (A again, hit), 2 (C, fault with
eviction). -/
def scenC0 : Pager := Pager.init (okD (MemoryManager.init 128 64)) "LRU"

def scenC1 : Pager := (okD (scenC0.access_page "P1" 0 0)).2

def scenC2 : Pager := (okD (scenC1.access_page "P1" 1 0)).2

def scenC3 : Pager := (okD (scenC2.access_page "P1" 0 0)).2

def scenC4 : Pager := (okD (scenC3.access_page "P1" 2 0)).2

/-! ### Claim C1 -/

/-- Claim C1 (conservation across every operation) fails on the code: in
scenario A both accesses succeed, yet afterwards the pool has one frame,
no free frames, and frame 0 sits in both `P1`'s and `P2`'s owned-frame
sets, so `|free| + Σ |owned| = 2 ≠ 1`.  The FIFO eviction neither removed
the victim frame from its old owner's set nor routed it through the free
set. -/
theorem conservation_violated_after_fifo_eviction :
    (okD (scenA0.access_page "P1" 0 0)).1 = (true, "loaded in frame 0")
    ∧ (okD (scenA1.access_page "P2" 0 0)).1 = (true, "loaded in frame 0")
    ∧ scenA2.mem.frames.length = 1
    ∧ scenA2.mem.free_frames = []
    ∧ dlookup scenA2.mem.pid_to_frames "P1" = some [0]
    ∧ dlookup scenA2.mem.pid_to_frames "P2" = some [0]
    ∧ ¬ conservation scenA2.mem := by
  decide

/-! ### Claim C2 -/

/-- Claim C2 (single ownership) fails on the code: in the same reachable
state `scenA2`, frame 0 appears in the owned-frame sets of both `P1` and
`P2` simultaneously. -/
theorem single_ownership_violated_after_fifo_eviction :
    0 ∈ (dlookup scenA2.mem.pid_to_frames "P1").getD []
    ∧ 0 ∈ (dlookup scenA2.mem.pid_to_frames "P2").getD []
    ∧ "P1" ≠ "P2" := by
  decide

/-! ### Claim C3 -/

/-- Claim C3 (page-table / frame-owner correspondence) fails on the code:
in `scenA2`, `P1`'s page table still maps page 0 to frame 0 (a non-absent
entry), but frame 0's recorded owner is `P2` — the FIFO eviction path
never blanks the victim's page-table entry. -/
theorem page_table_owner_mismatch_after_fifo_eviction :
    dlookup ((dlookup scenA2.page_tables "P1").getD []) 0 = some (some 0)
    ∧ scenA2.mem.frames.map Frame.pid = [some "P2"]
    ∧ "P1" ≠ "P2" := by
  decide

/-! ### Claim C4 -/

/-- Claim C4 fails on the code: in scenario A the faulting access by `P2`
does take the head of the load-order queue (frame 0) as victim, but the
evicted page's entry in `P1`'s table is never set to absent and the frame
is never returned to the pool — the FIFO branch performs no cleanup at
all before reusing the frame. -/
theorem fifo_eviction_performs_no_cleanup :
    scenA1.fifo = [0]
    ∧ scenA1.mem.free_frames = []
    ∧ (okD (scenA1.access_page "P2" 0 0)).1 = (true, "loaded in frame 0")
    ∧ dlookup ((dlookup scenA2.page_tables "P1").getD []) 0 = some (some 0)
    ∧ 0 ∉ scenA2.mem.free_frames := by
  decide

/-! ### Claim C5 -/

/-- Claim C5 fails on the code: after `P1` loads page 0 into frame 0 under
FIFO (`scenB1.fifo = [0]`), `deallocate_pid "P1"` removes the page table
and returns frame 0 to the free set, but the FIFO load-order queue still
contains the torn-down process's frame — `deallocate_pid` only purges LRU
keys (`app.py` lines 115-117) and never touches `self.fifo`. -/
theorem deallocate_pid_leaves_fifo_bookkeeping :
    scenB1.algorithm = "FIFO"
    ∧ scenB1.fifo = [0]
    ∧ dlookup scenB2.page_tables "P1" = none
    ∧ 0 ∈ scenB2.mem.free_frames
    ∧ scenB2.lru = []
    ∧ scenB2.fifo = [0] := by
  decide

/-! ### Claim C9 -/

/-- Claim C9 holds: under LRU with two frames, after accesses to pages 0
(fault), 1 (fault) and 0 (hit), loading page 2 evicts page 1 — the least
recently used — blanking its mapping and reusing its frame 1, while page
0 stays resident in frame 0. -/
theorem lru_evicts_least_recently_used :
    (okD (scenC2.access_page "P1" 0 0)).1 = (true, "hit")
    ∧ scenC3.access_page "P1" 2 0
        = Except.ok ((true, "loaded in frame 1"), scenC4)
    ∧ dlookup ((dlookup scenC4.page_tables "P1").getD []) 1 = some none
    ∧ dlookup ((dlookup scenC4.page_tables "P1").getD []) 0 = some (some 0)
    ∧ dlookup ((dlookup scenC4.page_tables "P1").getD []) 2 = some (some 1)
    ∧ (scenC4.mem.frames.map Frame.label) = [some "p0", some "p2"] := by
  decide

/-! ### Claim C6 -/

/-- Counterexample to claim C6 as stated: with `frame_size = 0` the
configuration does not complete — `max(1, total_kb // frame_kb)` raises
`ZeroDivisionError`, so no defensive clamping happens for a zero frame
size. -/
theorem rebuild_zero_frame_size_raises :
    MemoryManager.init 1024 0
      = Except.error "ZeroDivisionError: integer division or modulo by zero" := rfl

/-- Claim C6 amended: for every `total_kb` and every NONZERO `frame_kb`
(zero or negative capacity and negative frame size included), building the
pool completes without error and yields `max 1 (total_kb // frame_kb)`
frames (floor division, hence at least one frame), all frames unowned, the
free set the full index range, and all counters zero. -/
theorem rebuild_clamps_for_nonzero_frame_size (t f : Int) (h : f ≠ 0) :
    ∃ m, MemoryManager.init t f = Except.ok m
      ∧ m.frames.length = (max 1 (t.fdiv f)).toNat
      ∧ 1 ≤ m.frames.length
      ∧ m.free_frames = List.range m.frames.length
      ∧ (∀ fr ∈ m.frames, fr.pid = none ∧ fr.label = none)
      ∧ m.pid_to_frames = []
      ∧ m.page_faults = 0 ∧ m.allocations = 0 ∧ m.deallocations = 0 := by
  unfold MemoryManager.init MemoryManager.rebuild
  simp only [h, if_false]
  refine ⟨_, rfl, ?_, ?_, ?_, ?_, rfl, rfl, rfl, rfl⟩
  · simp
  · simp only [List.length_map, List.length_range]
    have h1 : (1 : Int) ≤ max 1 (t.fdiv f) := le_max_left _ _
    omega
  · simp
  · intro fr hfr
    simp only [List.mem_map, List.mem_range] at hfr
    obtain ⟨i, -, rfl⟩ := hfr
    exact ⟨rfl, rfl⟩

/-- Witness for the amended claim C6 at `total_kb = 1024`,
`frame_kb = 64`. -/
theorem rebuild_clamps_for_nonzero_frame_size_witness :
    (64 : Int) ≠ 0
    ∧ ∃ m, MemoryManager.init 1024 64 = Except.ok m
      ∧ m.frames.length = (max 1 ((1024 : Int).fdiv 64)).toNat
      ∧ 1 ≤ m.frames.length
      ∧ m.free_frames = List.range m.frames.length
      ∧ (∀ fr ∈ m.frames, fr.pid = none ∧ fr.label = none)
      ∧ m.pid_to_frames = []
      ∧ m.page_faults = 0 ∧ m.allocations = 0 ∧ m.deallocations = 0 :=
  ⟨by decide, rebuild_clamps_for_nonzero_frame_size 1024 64 (by decide)⟩

/-! ### Claim C7 -/

/-- The allocation loop succeeds whenever at most `|free_frames|` frames
are requested. -/
theorem allocPop_ok (pid : String) (k : Nat) :
    ∀ (m : MemoryManager), k ≤ m.free_frames.length →
      ∃ chosen m2, allocPop pid k m = Except.ok (chosen, m2) := by
  induction k with
  | zero => exact fun m _ => ⟨[], m, rfl⟩
  | succ k ih =>
    intro m h
    cases hf : m.free_frames with
    | nil => rw [hf] at h; simp at h
    | cons fidx rest =>
      have hrest : k ≤ rest.length := by rw [hf] at h; simpa using h
      obtain ⟨chosen, m2, hrun⟩ := ih
        { m with free_frames := rest,
                 frames := frameSetOwner m.frames fidx (some pid) none } hrest
      refine ⟨fidx :: chosen, m2, ?_⟩
      unfold allocPop
      rw [hf]
      simp only [hrun]

/-- Claim C7: `alloc_pages` succeeds exactly when the request fits in the
free set; on failure it reports a failure status and returns the memory
state entirely unchanged. -/
theorem alloc_pages_succeeds_iff_enough_free (m : MemoryManager)
    (pid : String) (n : Int) :
    (((m.free_frames.length : Int) < n →
        m.alloc_pages pid n = Except.ok ((false, "Not enough free frames"), m)))
    ∧ (n ≤ (m.free_frames.length : Int) →
        ∃ m2, m.alloc_pages pid n
          = Except.ok ((true, "Allocated " ++ toString n ++ " frames to " ++ pid), m2)) := by
  constructor
  · intro hlt
    unfold MemoryManager.alloc_pages
    rw [if_pos hlt]
  · intro hle
    unfold MemoryManager.alloc_pages
    rw [if_neg (by omega)]
    obtain ⟨chosen, m2, hrun⟩ := allocPop_ok pid n.toNat m (by omega)
    rw [hrun]
    exact ⟨_, rfl⟩

/-- Witness for claim C7: on a fresh two-frame pool, requesting one frame
fits and succeeds. -/
theorem alloc_pages_succeeds_iff_enough_free_witness :
    (1 : Int) ≤ ((okD (MemoryManager.init 128 64)).free_frames.length : Int)
    ∧ ∃ m2, (okD (MemoryManager.init 128 64)).alloc_pages "P9" 1
        = Except.ok ((true, "Allocated " ++ toString (1 : Int) ++ " frames to " ++ "P9"), m2) :=
  ⟨by decide,
   (alloc_pages_succeeds_iff_enough_free (okD (MemoryManager.init 128 64)) "P9" 1).2
     (by decide)⟩

/-! ### Claim C8 -/

theorem ensureTable_mem (s : Pager) (pid : String) :
    (s.ensureTable pid).mem = s.mem := by
  unfold Pager.ensureTable
  split <;> rfl

theorem touch_mem (s : Pager) (pid : String) (page : Int) :
    (s.touch pid page).mem = s.mem := rfl

theorem installMapping_page_faults (s : Pager) (pid : String) (page : Int)
    (fidx : Nat) :
    (s.installMapping pid page fidx).mem.page_faults = s.mem.page_faults := by
  simp only [Pager.installMapping, Pager.touch]
  split <;> rfl

theorem randFrame_ok_eq (s : Pager) (rnd fidx : Nat) (s2 : Pager)
    (h : s.randFrame rnd = Except.ok (fidx, s2)) : s2 = s := by
  unfold Pager.randFrame at h
  split at h
  · exact absurd h (by simp)
  · simp only [Except.ok.injEq, Prod.mk.injEq] at h
    exact h.2.symm

theorem obtainFrame_page_faults (s : Pager) (rnd fidx : Nat) (s2 : Pager)
    (h : s.obtainFrame rnd = Except.ok (fidx, s2)) :
    s2.mem.page_faults = s.mem.page_faults := by
  unfold Pager.obtainFrame at h
  repeat' split at h
  all_goals first
    | (simp only [Except.ok.injEq, Prod.mk.injEq] at h;
       obtain ⟨-, rfl⟩ := h; rfl)
    | (obtain rfl := randFrame_ok_eq _ _ _ _ h; rfl)
    | exact Except.noConfusion h

theorem allocPop_page_faults (pid : String) (k : Nat) :
    ∀ (m : MemoryManager) (chosen : List Nat) (m2 : MemoryManager),
      allocPop pid k m = Except.ok (chosen, m2) →
      m2.page_faults = m.page_faults := by
  induction k with
  | zero =>
    intro m chosen m2 h
    unfold allocPop at h
    simp only [Except.ok.injEq, Prod.mk.injEq] at h
    obtain ⟨-, rfl⟩ := h
    rfl
  | succ k ih =>
    intro m chosen m2 h
    unfold allocPop at h
    split at h
    · exact Except.noConfusion h
    · split at h
      · exact Except.noConfusion h
      · rename_i chosen2 m3 heq
        simp only [Except.ok.injEq, Prod.mk.injEq] at h
        obtain ⟨-, rfl⟩ := h
        have h4 := ih _ chosen2 m3 heq
        exact h4

theorem foldl_page_faults {α : Type} (step : MemoryManager → α → MemoryManager)
    (hstep : ∀ m a, (step m a).page_faults = m.page_faults) :
    ∀ (l : List α) (m : MemoryManager),
      (List.foldl step m l).page_faults = m.page_faults := by
  intro l
  induction l with
  | nil => intro m; rfl
  | cons x xs ih => intro m; rw [List.foldl_cons, ih, hstep]

/-- Claim C8: every successful `access_page` — hits included — bumps
`page_faults` by exactly one, and no other engine operation
(`create_process`, `alloc_pages`, `free_pid`, `deallocate_pid`) changes
it, so the counter is non-decreasing across any sequence of admissions,
accesses and deallocations; only a full reset zeroes it. -/
theorem page_faults_increment_and_monotone :
    (∀ (s : Pager) (pid : String) (page : Int) (rnd : Nat)
        (r : Bool × String) (s2 : Pager),
        s.access_page pid page rnd = Except.ok (r, s2) →
        s2.mem.page_faults = s.mem.page_faults + 1)
    ∧ (∀ (s : Pager) (pid : String) (n : Int),
        (s.create_process pid n).mem.page_faults = s.mem.page_faults)
    ∧ (∀ (m : MemoryManager) (pid : String) (n : Int)
        (r : Bool × String) (m2 : MemoryManager),
        m.alloc_pages pid n = Except.ok (r, m2) →
        m2.page_faults = m.page_faults)
    ∧ (∀ (m : MemoryManager) (pid : String),
        (m.free_pid pid).2.page_faults = m.page_faults)
    ∧ (∀ (s : Pager) (pid : String),
        (s.deallocate_pid pid).mem.page_faults = s.mem.page_faults) := by
  refine ⟨?_, ?_, ?_, ?_, ?_⟩
  · intro s pid page rnd r s2 h
    simp only [Pager.access_page] at h
    have hmem : ((s.chargeFault).ensureTable pid).mem.page_faults
        = s.mem.page_faults + 1 := by
      rw [ensureTable_mem]; rfl
    split at h
    · split at h <;>
        (simp only [Except.ok.injEq, Prod.mk.injEq] at h;
         obtain ⟨-, rfl⟩ := h)
      · rw [touch_mem, hmem]
      · rw [hmem]
    · split at h
      · exact absurd h (by simp)
      · rename_i fidx2 s3 heq
        simp only [Except.ok.injEq, Prod.mk.injEq] at h
        obtain ⟨-, rfl⟩ := h
        rw [installMapping_page_faults]
        rw [obtainFrame_page_faults _ _ _ _ heq, hmem]
  · intro s pid n
    rfl
  · intro m pid n r m2 h
    unfold MemoryManager.alloc_pages at h
    split at h
    · simp only [Except.ok.injEq, Prod.mk.injEq] at h
      obtain ⟨-, rfl⟩ := h
      rfl
    · split at h
      · exact absurd h (by simp)
      · rename_i chosen2 m3 heq
        simp only [Except.ok.injEq, Prod.mk.injEq] at h
        obtain ⟨-, rfl⟩ := h
        exact allocPop_page_faults pid n.toNat m chosen2 m3 heq
  · intro m pid
    unfold MemoryManager.free_pid
    split
    · rfl
    · exact foldl_page_faults releaseFrame (fun m fidx => rfl) _ m
  · intro s pid
    unfold Pager.deallocate_pid
    split
    · rfl
    · exact foldl_page_faults releaseEntry
        (fun m e => by rcases e with ⟨p, fo⟩; cases fo <;> rfl) _ s.mem

/-- Witness for claim C8: the concrete faulting access of scenario B bumps
the counter from 0 to 1. -/
theorem page_faults_increment_witness :
    scenB0.access_page "P1" 0 0 = Except.ok ((true, "loaded in frame 0"), scenB1)
    ∧ scenB1.mem.page_faults = scenB0.mem.page_faults + 1 :=
  ⟨by decide,
   page_faults_increment_and_monotone.1 scenB0 "P1" 0 0
     (true, "loaded in frame 0") scenB1 (by decide)⟩

/-! ### Claim C10 -/

theorem dlookup_dset_self {κ ν : Type} [DecidableEq κ] (l : List (κ × ν))
    (k : κ) (v : ν) : dlookup (dset l k v) k = some v := by
  induction l with
  | nil => simp [dset, dlookup]
  | cons e rest ih =>
    obtain ⟨k2, v2⟩ := e
    by_cases h : k = k2
    · subst h; simp [dset, dlookup]
    · simp [dset, dlookup, h, ih]

theorem dlookup_append_left {κ ν : Type} [DecidableEq κ] (l l2 : List (κ × ν))
    (k : κ) (h : (dlookup l k).isSome) :
    dlookup (l ++ l2) k = dlookup l k := by
  induction l with
  | nil => simp [dlookup] at h
  | cons e rest ih =>
    obtain ⟨k2, v2⟩ := e
    by_cases hk : k = k2 <;> simp_all [dlookup]

theorem dlookup_append_right {κ ν : Type} [DecidableEq κ] (l l2 : List (κ × ν))
    (k : κ) (h : dlookup l k = none) :
    dlookup (l ++ l2) k = dlookup l2 k := by
  induction l with
  | nil => simp
  | cons e rest ih =>
    obtain ⟨k2, v2⟩ := e
    by_cases hk : k = k2 <;> simp_all [dlookup]

theorem ensureTable_lru (s : Pager) (pid : String) :
    (s.ensureTable pid).lru = s.lru := by
  unfold Pager.ensureTable
  split <;> rfl

theorem ensureTable_lookup (s : Pager) (pid vpid : String)
    (vpt : List (Int × Option Nat))
    (h : dlookup s.page_tables vpid = some vpt) :
    dlookup (s.ensureTable pid).page_tables vpid = some vpt := by
  unfold Pager.ensureTable
  split
  · exact h
  · show dlookup (s.page_tables ++ [(pid, [])]) vpid = some vpt
    rw [dlookup_append_left _ _ _ (by simp [h])]
    exact h

theorem ensureTable_self_isSome (s : Pager) (pid : String) :
    (dlookup (s.ensureTable pid).page_tables pid).isSome := by
  unfold Pager.ensureTable
  split
  · assumption
  · rename_i hnone
    show (dlookup (s.page_tables ++ [(pid, [])]) pid).isSome
    rw [dlookup_append_right _ _ _ (by
      cases hl : dlookup s.page_tables pid
      · rfl
      · rw [hl] at hnone; exact absurd rfl hnone)]
    simp [dlookup]

theorem installMapping_tables (s : Pager) (pid : String) (page : Int)
    (fidx : Nat) :
    dlookup (s.installMapping pid page fidx).page_tables pid
      = some (dset (s.tableOf pid) page (some fidx)) := by
  simp only [Pager.installMapping, Pager.touch]
  split <;> exact dlookup_dset_self _ _ _

theorem randFrame_ok_of_nonempty (s : Pager) (rnd : Nat)
    (h : s.mem.frames.length ≠ 0) :
    ∃ fidx s2, s.randFrame rnd = Except.ok (fidx, s2) := by
  unfold Pager.randFrame
  rw [if_neg h]
  exact ⟨_, _, rfl⟩

/-- Under the structural facts that hold in every reachable state (the
pool has at least one frame, and every key of the LRU ordering resolves
through the page tables), the frame-obtaining block never raises. -/
theorem obtainFrame_ok (s : Pager) (rnd : Nat)
    (hframes : s.mem.frames ≠ [])
    (hlru : ∀ vpid vp t, ((vpid, vp), t) ∈ s.lru →
        ∃ vpt, dlookup s.page_tables vpid = some vpt ∧ (dlookup vpt vp).isSome) :
    ∃ fidx s2, s.obtainFrame rnd = Except.ok (fidx, s2) := by
  have hlen : s.mem.frames.length ≠ 0 :=
    fun hh => hframes (List.length_eq_zero.mp hh)
  unfold Pager.obtainFrame
  cases hfree : s.mem.free_frames with
  | cons fidx rest => exact ⟨fidx, _, rfl⟩
  | nil =>
    by_cases halg : s.algorithm = "FIFO"
    · rw [if_pos halg]
      cases hq : s.fifo with
      | cons v rest => exact ⟨v, _, rfl⟩
      | nil => exact randFrame_ok_of_nonempty _ rnd hlen
    · rw [if_neg halg]
      cases hl : s.lru with
      | nil => exact randFrame_ok_of_nonempty _ rnd hlen
      | cons entry rest =>
        obtain ⟨⟨vpid, vp⟩, t⟩ := entry
        obtain ⟨vpt, hvpt, hsome⟩ := hlru vpid vp t (by
          rw [hl]; exact List.mem_cons_self _ _)
        dsimp only
        rw [hvpt]
        dsimp only
        obtain ⟨fo, hfo⟩ := Option.isSome_iff_exists.mp hsome
        rw [hfo]
        cases fo with
        | some ofr => exact ⟨ofr, _, rfl⟩
        | none => exact randFrame_ok_of_nonempty _ rnd hlen

/-- Claim C10: for EVERY process id and page number — an id that was never
admitted and a page outside the range declared at admission included —
`access_page` returns a success status, lazily creating a table for an
unknown process and installing the page as a new resident entry.  The two
hypotheses are the structural facts holding in every reachable state: the
pool always has at least one frame (`_rebuild` clamps to one), and every
LRU key resolves through the page tables (keys are only inserted for
installed mappings and purged on teardown). -/
theorem access_page_always_succeeds (s : Pager) (pid : String) (page : Int)
    (rnd : Nat)
    (hframes : s.mem.frames ≠ [])
    (hlru : ∀ vpid vp t, ((vpid, vp), t) ∈ s.lru →
        ∃ vpt, dlookup s.page_tables vpid = some vpt ∧ (dlookup vpt vp).isSome) :
    ∃ msg s2, s.access_page pid page rnd = Except.ok ((true, msg), s2)
      ∧ (dlookup s2.page_tables pid).isSome
      ∧ ∃ fr, dlookup ((dlookup s2.page_tables pid).getD []) page
          = some (some fr) := by
  have hframes1 : (s.chargeFault.ensureTable pid).mem.frames ≠ [] := by
    rw [ensureTable_mem]; exact hframes
  have hlru1 : ∀ vpid vp t, ((vpid, vp), t) ∈ (s.chargeFault.ensureTable pid).lru →
      ∃ vpt, dlookup (s.chargeFault.ensureTable pid).page_tables vpid = some vpt
        ∧ (dlookup vpt vp).isSome := by
    intro vpid vp t hmem
    rw [ensureTable_lru] at hmem
    obtain ⟨vpt, hvpt, hsome⟩ := hlru vpid vp t hmem
    exact ⟨vpt, ensureTable_lookup _ pid vpid vpt hvpt, hsome⟩
  simp only [Pager.access_page]
  cases hpt : dlookup ((s.chargeFault.ensureTable pid).tableOf pid) page with
  | some fo =>
    cases fo with
    | some f =>
      by_cases halg : (s.chargeFault.ensureTable pid).algorithm = "LRU"
      · rw [if_pos halg]
        exact ⟨"hit", _, rfl, ensureTable_self_isSome _ pid, f, hpt⟩
      · rw [if_neg halg]
        exact ⟨"hit", _, rfl, ensureTable_self_isSome _ pid, f, hpt⟩
    | none =>
      obtain ⟨fidx, s3, hobt⟩ := obtainFrame_ok _ rnd hframes1 hlru1
      rw [hobt]
      refine ⟨_, _, rfl, ?_, fidx, ?_⟩
      · rw [installMapping_tables]; rfl
      · rw [installMapping_tables]
        exact dlookup_dset_self _ _ _
  | none =>
    obtain ⟨fidx, s3, hobt⟩ := obtainFrame_ok _ rnd hframes1 hlru1
    rw [hobt]
    refine ⟨_, _, rfl, ?_, fidx, ?_⟩
    · rw [installMapping_tables]; rfl
    · rw [installMapping_tables]
      exact dlookup_dset_self _ _ _

/-- Witness for claim C10: on the fresh LRU pager, a never-admitted
process "Z" accessing the out-of-range page -5 succeeds and installs a
resident entry. -/
theorem access_page_always_succeeds_witness :
    ∃ msg s2, scenC0.access_page "Z" (-5) 0 = Except.ok ((true, msg), s2)
      ∧ (dlookup s2.page_tables "Z").isSome
      ∧ ∃ fr, dlookup ((dlookup s2.page_tables "Z").getD []) (-5)
          = some (some fr) :=
  access_page_always_succeeds scenC0 "Z" (-5) 0 (by decide) (by
    intro vpid vp t hmem
    rw [show scenC0.lru = [] from rfl] at hmem
    exact absurd hmem (List.not_mem_nil _))

end MemSim
